import Mathlib

/-!
Shallow embedding of the local persistence layer of the CodeBuddy
repository (`StorageManager`, src/unnamed/part_000).

The storage manager routes every public method through
`performTransaction`: when `useLocalStorage` is unset the operation runs
against the structured IndexedDB backend, and when it is set the call is
diverted to `performLocalStorageOperation`, the flat localStorage
fallback.  We embed the two branches as two families of pure functions:

* the structured backend acts on a `DB` record holding the four
  collections (`notes`, `tasks`, `knowledge_graph`, `settings`) as lists
  keyed by their primary key, with IndexedDB `put` modelled as
  key-based upsert, `get` as lookup, `getAll` as the full list,
  `delete` as removal and `clear` as emptying;
* the fallback backend acts on an `LS` record holding, for each
  collection name, the parse of the serialized text that localStorage
  currently associates with it (`Slot`): absent, a serialized array of
  records, or a single serialized object (which the fallback write-back
  can produce).

Timestamps (`new Date().toISOString()`) are modelled as a `Nat` clock
passed to each operation; ISO-8601 strings of a monotone clock compare
the same way.  `generateId()` results are modelled as explicit string
parameters (the generator is random).  Graph node and link payloads are
abstracted as opaque strings: the storage layer never inspects them.
-/

namespace CodeBuddy

/-! ## JavaScript coercion helpers -/

/-- JS `x || d` for a string-valued field that may be absent: `undefined`,
`null` and the empty string are falsy, so they yield the default. -/
def jsOrS : Option String → String → String
  | none, d => d
  | some s, d => if s = "" then d else s

/-- JS `x || null` for an optional string field: an absent or empty value
becomes `null` (modelled as `none`). -/
def jsOrNull : Option String → Option String
  | none => none
  | some s => if s = "" then none else some s

/-! ## Domain records (after normalization) and raw inputs -/

/-- A persisted note record, as built by `saveNote` (part_000 lines 105-121). -/
structure Note where
  id : String
  title : String
  content : String
  tags : List String
  createdAt : Nat
  updatedAt : Nat
  wordCount : Nat
deriving DecidableEq, Repr

/-- The caller-supplied note object: every field may be absent. -/
structure NoteInput where
  id : Option String := none
  title : Option String := none
  content : Option String := none
  tags : Option (List String) := none
  createdAt : Option Nat := none
deriving DecidableEq, Repr

/-- A persisted task record, as built by `saveTask` (part_000 lines 164-182). -/
structure Task where
  id : String
  title : String
  description : String
  priority : String
  completed : Bool
  dueDate : Option String
  createdAt : Nat
  updatedAt : Nat
  relatedNoteId : Option String
deriving DecidableEq, Repr

/-- The caller-supplied task object: every field may be absent. -/
structure TaskInput where
  id : Option String := none
  title : Option String := none
  description : Option String := none
  priority : Option String := none
  completed : Option Bool := none
  dueDate : Option String := none
  createdAt : Option Nat := none
  relatedNoteId : Option String := none
deriving DecidableEq, Repr

/-- The persisted knowledge-graph record built by `saveKnowledgeGraph`
(part_000 lines 224-237); node and link payloads are opaque. -/
structure GraphRec where
  id : String
  nodes : List String
  links : List String
  updatedAt : Nat
deriving DecidableEq, Repr

/-- The caller-supplied graph object (`graphData`). -/
structure GraphInput where
  nodes : Option (List String) := none
  links : Option (List String) := none
deriving DecidableEq, Repr

/-- A persisted settings record built by `saveSetting` (part_000 lines 249-261). -/
structure Setting where
  key : String
  value : String
  updatedAt : Nat
deriving DecidableEq, Repr

/-! ## Normalizers

These mirror the object literals at the top of `saveNote`, `saveTask`,
`saveKnowledgeGraph` and `saveSetting`. -/

/-- `saveNote`'s record construction (part_000 lines 106-114):
`id: note.id || this.generateId()`, `title: note.title || '无标题笔记'`,
`content: note.content || ''`, `tags: note.tags || []`,
`createdAt: note.createdAt || now`, `updatedAt: now`,
`wordCount: note.content ? note.content.length : 0`. -/
def normalizeNote (n : NoteInput) (gid : String) (now : Nat) : Note :=
  { id := jsOrS n.id gid
    title := jsOrS n.title "无标题笔记"
    content := jsOrS n.content ""
    tags := n.tags.getD []
    createdAt := n.createdAt.getD now
    updatedAt := now
    wordCount := match n.content with
      | none => 0
      | some c => if c = "" then 0 else c.length }

/-- `saveTask`'s record construction (part_000 lines 165-175). -/
def normalizeTask (t : TaskInput) (gid : String) (now : Nat) : Task :=
  { id := jsOrS t.id gid
    title := jsOrS t.title "新任务"
    description := jsOrS t.description ""
    priority := jsOrS t.priority "medium"
    completed := t.completed.getD false
    dueDate := jsOrNull t.dueDate
    createdAt := t.createdAt.getD now
    updatedAt := now
    relatedNoteId := jsOrNull t.relatedNoteId }

/-- `saveKnowledgeGraph`'s record construction (part_000 lines 225-230):
fixed key `'main_graph'`, `nodes: graphData.nodes || []`,
`links: graphData.links || []`. -/
def normalizeGraph (g : GraphInput) (now : Nat) : GraphRec :=
  { id := "main_graph"
    nodes := g.nodes.getD []
    links := g.links.getD []
    updatedAt := now }

/-! ## Structured backend (IndexedDB branch)

State of the four object stores.  `performTransaction` resolves with the
request result (`request.onsuccess` fires before the transaction's
`oncomplete`), so `get` on a missing key resolves with `undefined`
(`none` here) and `getAll` with the stored array. -/

/-- The four IndexedDB object stores created in `openDatabase`
(part_000 lines 32-60): `notes` and `tasks` keyed by `id`,
`knowledge_graph` keyed by `id` (at most the single `'main_graph'`
record is ever written), `settings` keyed by `key`. -/
structure DB where
  notes : List Note
  tasks : List Task
  kg : Option GraphRec
  settings : List Setting
deriving DecidableEq, Repr

def DB.empty : DB := { notes := [], tasks := [], kg := none, settings := [] }

/-- IndexedDB `store.put`: replace the record with the same primary key,
or append the record if the key is absent. -/
def putByKey (k : α → String) (l : List α) (a : α) : List α :=
  if l.any (fun x => k x == k a) then
    l.map (fun x => if k x == k a then a else x)
  else l ++ [a]

/-- `saveNote` (part_000 lines 105-121): normalize, `put`, return the record. -/
def saveNote (db : DB) (n : NoteInput) (gid : String) (now : Nat) : Note × DB :=
  let noteData := normalizeNote n gid now
  (noteData, { db with notes := putByKey Note.id db.notes noteData })

/-- `getNotes` (part_000 lines 123-130), structured branch: `store.getAll()`. -/
def getNotes (db : DB) : List Note := db.notes

/-- `getNote` (part_000 lines 132-139), structured branch: `store.get(id)`,
which resolves with `undefined` when the key is absent. -/
def getNote (db : DB) (id : String) : Option Note :=
  db.notes.find? (fun n => n.id == id)

/-- `deleteNote` (part_000 lines 141-150), structured branch:
`store.delete(id)`, which succeeds whether or not the key exists. -/
def deleteNote (db : DB) (id : String) : DB :=
  { db with notes := db.notes.filter (fun n => !(n.id == id)) }

/-- JS `hay.includes(pat)`: `pat` occurs as a contiguous substring of `hay`
(the empty pattern is contained in everything). -/
def strIncludes (hay pat : String) : Bool :=
  (List.range (hay.toList.length + 1)).any
    (fun i => pat.toList.isPrefixOf (hay.toList.drop i))

/-- The filter predicate of `searchNotes` (part_000 lines 156-160), with
`term` already lower-cased. -/
def noteMatches (n : Note) (term : String) : Bool :=
  strIncludes n.title.toLower term ||
  strIncludes n.content.toLower term ||
  n.tags.any (fun tag => strIncludes tag.toLower term)

/-- `searchNotes` (part_000 lines 152-161): lower-case the query once,
then filter `getNotes()`. -/
def searchNotes (db : DB) (q : String) : List Note :=
  (getNotes db).filter (fun n => noteMatches n q.toLower)

/-- `saveTask` (part_000 lines 164-182). -/
def saveTask (db : DB) (t : TaskInput) (gid : String) (now : Nat) : Task × DB :=
  let taskData := normalizeTask t gid now
  (taskData, { db with tasks := putByKey Task.id db.tasks taskData })

/-- `getTasks` (part_000 lines 184-191), structured branch. -/
def getTasks (db : DB) : List Task := db.tasks

/-- `getTask` (part_000 lines 193-200), structured branch. -/
def getTask (db : DB) (id : String) : Option Task :=
  db.tasks.find? (fun t => t.id == id)

/-- `deleteTask` (part_000 lines 202-211), structured branch. -/
def deleteTask (db : DB) (id : String) : DB :=
  { db with tasks := db.tasks.filter (fun t => !(t.id == id)) }

/-- The full task record passed by `updateTaskStatus` back into `saveTask`:
in JS the same object flows through, so every field is present. -/
def taskToInput (t : Task) : TaskInput :=
  { id := some t.id
    title := some t.title
    description := some t.description
    priority := some t.priority
    completed := some t.completed
    dueDate := t.dueDate
    createdAt := some t.createdAt
    relatedNoteId := t.relatedNoteId }

/-- `updateTaskStatus` (part_000 lines 213-221): read the task; if found,
set `completed` and `updatedAt` on it, save it through `saveTask`, and
return the mutated object; if absent, skip the write and return the
not-found value. -/
def updateTaskStatus (db : DB) (id : String) (completed : Bool)
    (gid : String) (now : Nat) : Option Task × DB :=
  match getTask db id with
  | none => (none, db)
  | some task =>
      let modified := { task with completed := completed, updatedAt := now }
      (some modified, (saveTask db (taskToInput modified) gid now).2)

/-- `saveKnowledgeGraph` (part_000 lines 224-237): upsert the single
fixed-key record. -/
def saveKnowledgeGraph (db : DB) (g : GraphInput) (now : Nat) : GraphRec × DB :=
  let data := normalizeGraph g now
  (data, { db with kg := some data })

/-- `getKnowledgeGraph` (part_000 lines 239-246), structured branch:
`store.get('main_graph')` — resolves with `undefined` (not with the
empty-graph default) when the record was never saved. -/
def getKnowledgeGraph (db : DB) : Option GraphRec := db.kg

/-- `saveSetting` (part_000 lines 249-261). -/
def saveSetting (db : DB) (key value : String) (now : Nat) : Setting × DB :=
  let setting : Setting := { key := key, value := value, updatedAt := now }
  (setting, { db with settings := putByKey Setting.key db.settings setting })

/-- `getSetting` (part_000 lines 263-272), structured branch:
`setting ? setting.value : defaultValue`. -/
def getSetting (db : DB) (key dflt : String) : String :=
  match db.settings.find? (fun s => s.key == key) with
  | some s => s.value
  | none => dflt

/-- `getAllSettings` (part_000 lines 295-302), structured branch. -/
def getAllSettings (db : DB) : List Setting := db.settings

/-- `clearAllData` (part_000 lines 350-362), structured branch: clear each
of the four stores in turn. -/
def clearAllData (_db : DB) : DB := DB.empty

/-! ## Export / import documents -/

/-- The `data` field of an export document (part_000 lines 286-291).  For
import, each of the four fields may be absent, and an element of the notes
or tasks arrays may be `null` (JSON permits it); `knowledgeGraph` may be
`undefined` because `exportData` copies `getKnowledgeGraph()`'s result,
which in the structured backend is `undefined` when nothing was saved. -/
structure ExportData where
  notes : Option (List (Option NoteInput)) := none
  tasks : Option (List (Option TaskInput)) := none
  knowledgeGraph : Option GraphInput := none
  settings : Option (List Setting) := none
deriving DecidableEq, Repr

/-- The top-level export document (part_000 lines 283-292); `data` may be
absent on foreign input, which `importData` rejects. -/
structure ExportDoc where
  version : String := "1.0"
  exportDate : Nat := 0
  data : Option ExportData := none
deriving DecidableEq, Repr

/-- The input object `saveNote` receives when `importData` replays an
exported record: every field of the stored record is present. -/
def noteToInput (n : Note) : NoteInput :=
  { id := some n.id
    title := some n.title
    content := some n.content
    tags := some n.tags
    createdAt := some n.createdAt }

/-- The graph object `saveKnowledgeGraph` receives on import: the stored
record flows through and only its `nodes` and `links` fields are read. -/
def graphToInput (g : GraphRec) : GraphInput :=
  { nodes := some g.nodes, links := some g.links }

/-- `exportData` (part_000 lines 275-293), structured backend: read all
four collections and assemble the versioned snapshot. -/
def exportData (db : DB) (now : Nat) : ExportDoc :=
  { version := "1.0"
    exportDate := now
    data := some
      { notes := some (db.notes.map (fun n => some (noteToInput n)))
        tasks := some (db.tasks.map (fun t => some (taskToInput t)))
        knowledgeGraph := (getKnowledgeGraph db).map graphToInput
        settings := some (getAllSettings db) } }

/-! ## Errors

The fallback path and `importData` are the only sources of failure in the
model.  `JsErr.importError` stands for the `Error('无效的导入数据格式')`
thrown on a missing `data` field; `JsErr.typeError` for a JavaScript
`TypeError` (calling a missing method, or reading a property of `null`). -/

inductive JsErr where
  | typeError : String → JsErr
  | importError : JsErr
deriving DecidableEq, Repr

/-- The `TypeError` raised when the operation calls `store.put` on the
plain `{ data }` object supplied by `performLocalStorageOperation`. -/
def putUndefined : JsErr := .typeError "store.put is not a function"

/-- The `TypeError` raised when the operation calls `store.data.find` (or
`.filter`) while the deserialized `data` is a single object, not an array. -/
def findUndefined : JsErr := .typeError "store.data.find is not a function"

/-- The `TypeError` raised when `saveNote`/`saveTask` reads a property of a
`null` array element during `importData`. -/
def nullRecord : JsErr := .typeError "Cannot read properties of null"

/-! ## Import -/

/-- `saveNote` as invoked on an arbitrary array element by `importData`
(part_000 lines 317-321): a `null` element throws a `TypeError` when
`saveNote` reads `note.id`, after earlier elements were already saved. -/
def saveNoteElem (db : DB) (v : Option NoteInput) (gid : String) (now : Nat) :
    Except JsErr (Note × DB) :=
  match v with
  | none => .error nullRecord
  | some n => .ok (saveNote db n gid now)

/-- `saveTask` on an arbitrary array element, as above (lines 324-328). -/
def saveTaskElem (db : DB) (v : Option TaskInput) (gid : String) (now : Nat) :
    Except JsErr (Task × DB) :=
  match v with
  | none => .error nullRecord
  | some t => .ok (saveTask db t gid now)

/-- The sequential `for (const note of notes) await this.saveNote(note)`
loop of `importData`: `g i` is the id `generateId()` would produce for the
`i`-th element; the first failing element aborts the loop, leaving the
writes of earlier elements in place. -/
def importNotesGo (db : DB) (l : List (Option NoteInput)) (g : Nat → String)
    (i now : Nat) : Except JsErr Unit × DB :=
  match l with
  | [] => (.ok (), db)
  | v :: rest =>
      match saveNoteElem db v (g i) now with
      | .error e => (.error e, db)
      | .ok (_, db1) => importNotesGo db1 rest g (i + 1) now

/-- The sequential task-import loop of `importData`. -/
def importTasksGo (db : DB) (l : List (Option TaskInput)) (g : Nat → String)
    (i now : Nat) : Except JsErr Unit × DB :=
  match l with
  | [] => (.ok (), db)
  | v :: rest =>
      match saveTaskElem db v (g i) now with
      | .error e => (.error e, db)
      | .ok (_, db1) => importTasksGo db1 rest g (i + 1) now

/-- The sequential settings-import loop of `importData` (lines 336-340):
`saveSetting(setting.key, setting.value)` for each element. -/
def importSettingsGo (db : DB) (l : List Setting) (now : Nat) : DB :=
  match l with
  | [] => db
  | s :: rest => importSettingsGo (saveSetting db s.key s.value now).2 rest now

/-- `importData` (part_000 lines 305-347), structured backend: reject a
document without a `data` field; otherwise replay notes, tasks, the
knowledge graph and settings sequentially through the normal save path.
A failure aborts the remainder but keeps every write already applied. -/
def importData (db : DB) (doc : ExportDoc) (gN gT : Nat → String) (now : Nat) :
    Except JsErr Bool × DB :=
  match doc.data with
  | none => (.error .importError, db)
  | some d =>
      match importNotesGo db (d.notes.getD []) gN 0 now with
      | (.error e, db1) => (.error e, db1)
      | (.ok _, db1) =>
          match importTasksGo db1 (d.tasks.getD []) gT 0 now with
          | (.error e, db2) => (.error e, db2)
          | (.ok _, db2) =>
              let db3 := match d.knowledgeGraph with
                | none => db2
                | some g => (saveKnowledgeGraph db2 g now).2
              (.ok true, importSettingsGo db3 (d.settings.getD []) now)

/-! ## Flat fallback backend (localStorage branch)

`performLocalStorageOperation` (part_000 lines 91-102) deserializes the
whole collection (`JSON.parse(localStorage.getItem(storeName) || '[]')`),
runs the operation on the plain object `{ data }`, and — whenever the
operation's result is defined — serializes the result back as the new
stored text for the collection.  A thrown error rejects the returned
promise and skips that write-back.

`Slot` is the parse-level state of one collection's stored text: never
written (`getItem` yields `null`, so the parse is `[]`), a serialized
array of records, or a single serialized object (which the write-back
creates whenever an operation returns one record). -/

inductive Slot (α : Type) where
  | absent
  | arr (l : List α)
  | single (a : α)
deriving DecidableEq, Repr

/-- What JSON.parse hands to the operation as `data`. -/
inductive JsData (α : Type) where
  | array (l : List α)
  | object (a : α)
deriving DecidableEq, Repr

/-- `JSON.parse(localStorage.getItem(storeName) || '[]')`. -/
def Slot.parse : Slot α → JsData α
  | .absent => .array []
  | .arr l => .array l
  | .single a => .object a

/-- A value the fallback knowledge-graph entry can hold: a full stored
record, or the bare `{ nodes: [], links: [] }` default object that
`getKnowledgeGraph`'s write-back stores (it has no `id` field). -/
inductive KgStored where
  | record (g : GraphRec)
  | emptyGraph
deriving DecidableEq, Repr

/-- The `item.id` property read by `getKnowledgeGraph`'s `find` callback:
the default object has none. -/
def kgId : KgStored → Option String
  | .record g => some g.id
  | .emptyGraph => none

/-- localStorage state: one slot per collection name. -/
structure LS where
  notes : Slot Note
  tasks : Slot Task
  kg : Slot KgStored
  settings : Slot Setting
deriving DecidableEq, Repr

def LS.empty : LS :=
  { notes := .absent, tasks := .absent, kg := .absent, settings := .absent }

/-- `saveNote` in fallback mode: the operation immediately calls
`store.put(noteData)`, but the `store` it receives is the plain object
`{ data }` with no `put` method, so a `TypeError` is thrown before any
write-back; the promise rejects and the stored collection is untouched. -/
def lsSaveNote (ls : LS) (_n : NoteInput) (_gid : String) (_now : Nat) :
    Except JsErr Note × LS :=
  (.error putUndefined, ls)

/-- `saveTask` in fallback mode: rejects exactly like `lsSaveNote`. -/
def lsSaveTask (ls : LS) (_t : TaskInput) (_gid : String) (_now : Nat) :
    Except JsErr Task × LS :=
  (.error putUndefined, ls)

/-- `saveKnowledgeGraph` in fallback mode: rejects exactly like `lsSaveNote`. -/
def lsSaveKnowledgeGraph (ls : LS) (_g : GraphInput) (_now : Nat) :
    Except JsErr GraphRec × LS :=
  (.error putUndefined, ls)

/-- `saveSetting` in fallback mode: rejects exactly like `lsSaveNote`. -/
def lsSaveSetting (ls : LS) (_key _value : String) (_now : Nat) :
    Except JsErr Setting × LS :=
  (.error putUndefined, ls)

/-- `getNotes` in fallback mode: the operation returns `store.data || []`
(both arrays and objects are truthy, so this is `data` itself); the
defined result is then written back verbatim by the combinator. -/
def lsGetNotes (ls : LS) : Except JsErr (JsData Note) × LS :=
  match ls.notes.parse with
  | .array l => (.ok (.array l), { ls with notes := .arr l })
  | .object a => (.ok (.object a), { ls with notes := .single a })

/-- `getNote(id)` in fallback mode: `store.data.find(n => n.id === id)`.
On an array, a hit returns the record — which the combinator then writes
back as the collection's entire stored text; a miss returns `undefined`
and nothing is written.  If the stored text is a single object (a previous
hit's write-back), `.find` is not a function and the call rejects. -/
def lsGetNote (ls : LS) (id : String) : Except JsErr (Option Note) × LS :=
  match ls.notes.parse with
  | .object _ => (.error findUndefined, ls)
  | .array l =>
      match l.find? (fun n => n.id == id) with
      | some n => (.ok (some n), { ls with notes := .single n })
      | none => (.ok none, ls)

/-- `getSetting(key, default)` in fallback mode: same shape as `lsGetNote`
(`store.data.find(item => item.key === key)`), then
`setting ? setting.value : defaultValue` outside the transaction. -/
def lsGetSetting (ls : LS) (key dflt : String) : Except JsErr String × LS :=
  match ls.settings.parse with
  | .object _ => (.error findUndefined, ls)
  | .array l =>
      match l.find? (fun s => s.key == key) with
      | some s => (.ok s.value, { ls with settings := .single s })
      | none => (.ok dflt, ls)

/-- `getKnowledgeGraph` in fallback mode:
`store.data.find(item => item.id === 'main_graph') || { nodes: [], links: [] }`.
The result is always defined, so it is always written back — including the
default object, which replaces the stored entry and makes the next call
reject (`.find` on an object). -/
def lsGetKnowledgeGraph (ls : LS) : Except JsErr KgStored × LS :=
  match ls.kg.parse with
  | .object _ => (.error findUndefined, ls)
  | .array l =>
      let result := (l.find? (fun item => kgId item == some "main_graph")).getD .emptyGraph
      (.ok result, { ls with kg := .single result })

/-! ## Reachability invariants and re-normalization

Every record the normalizers emit has a nonempty id and title (their JS
defaults are nonempty strings), a nonempty priority, and no empty-string
optional fields (`x || null` never stores `""`).  These are the states
reachable through the Façade, and the round-trip claim is settled for
them. -/

abbrev NoteWf (n : Note) : Prop := n.id ≠ "" ∧ n.title ≠ ""

abbrev TaskWf (t : Task) : Prop :=
  t.id ≠ "" ∧ t.title ≠ "" ∧ t.priority ≠ "" ∧
  t.dueDate ≠ some "" ∧ t.relatedNoteId ≠ some ""

/-- What re-importing a stored note through `saveNote` does to it: the
timestamp of the import replaces `updatedAt`, `wordCount` is recomputed
from the content, everything else is preserved. -/
def reimportNote (now : Nat) (n : Note) : Note :=
  { n with updatedAt := now, wordCount := n.content.length }

/-- What re-importing a stored task through `saveTask` does to it. -/
def reimportTask (now : Nat) (t : Task) : Task := { t with updatedAt := now }

/-! ## Sample records (used only to instantiate witnesses) -/

def sampleNote : Note :=
  { id := "a", title := "t", content := "c", tags := [], createdAt := 0,
    updatedAt := 0, wordCount := 1 }

def sampleSetting : Setting := { key := "theme", value := "dark", updatedAt := 2 }

def sampleGraph : GraphRec :=
  { id := "main_graph", nodes := ["n"], links := [], updatedAt := 3 }

def sampleNoteInput : NoteInput :=
  { title := some "hi", content := some "ab", createdAt := some 2 }

def sampleTask : Task :=
  { id := "b", title := "todo", description := "", priority := "medium",
    completed := false, dueDate := none, createdAt := 0, updatedAt := 0,
    relatedNoteId := none }

/-! ## Helper lemmas -/

theorem jsOrS_ne_empty (o : Option String) (d : String) (hd : d ≠ "") :
    jsOrS o d ≠ "" := by
  cases o with
  | none => simpa [jsOrS] using hd
  | some s =>
      by_cases hs : s = "" <;> simp [jsOrS, hs, hd]

theorem jsOrS_some_of_ne (s d : String) (hs : s ≠ "") : jsOrS (some s) d = s := by
  simp [jsOrS, hs]

theorem jsOrS_some_empty_default (s : String) : jsOrS (some s) "" = s := by
  by_cases hs : s = "" <;> simp [jsOrS, hs]

theorem jsOrNull_idem (o : Option String) : jsOrNull (jsOrNull o) = jsOrNull o := by
  cases o with
  | none => rfl
  | some s => by_cases hs : s = "" <;> simp [jsOrNull, hs]

theorem jsOrNull_ne_some_empty (o : Option String) : jsOrNull o ≠ some "" := by
  cases o with
  | none => simp [jsOrNull]
  | some s => by_cases hs : s = "" <;> simp [jsOrNull, hs]

theorem jsOrNull_of_ne (o : Option String) (h : o ≠ some "") : jsOrNull o = o := by
  cases o with
  | none => rfl
  | some s =>
      have hs : s ≠ "" := by intro h0; exact h (by rw [h0])
      simp [jsOrNull, hs]

theorem find?_map_put (k : α → String) (a : α) :
    ∀ l : List α, l.any (fun x => k x == k a) = true →
      (l.map (fun x => if k x == k a then a else x)).find?
        (fun x => k x == k a) = some a := by
  intro l h
  induction l with
  | nil => simp at h
  | cons x xs ih =>
      cases hb : k x == k a with
      | true =>
          have he : k x = k a := eq_of_beq hb
          simp [List.find?_cons, he]
      | false =>
          have he : ¬ k x = k a := fun e => by simp [e] at hb
          have hxs : xs.any (fun x => k x == k a) = true := by
            simp only [List.any_cons, hb, Bool.false_or] at h
            exact h
          simp only [List.map_cons, List.find?_cons, hb]
          simpa [hb] using ih hxs

theorem find?_putByKey (k : α → String) (l : List α) (a : α) :
    (putByKey k l a).find? (fun x => k x == k a) = some a := by
  unfold putByKey
  by_cases h : l.any (fun x => k x == k a) = true
  · rw [if_pos h]
    exact find?_map_put k a l h
  · rw [if_neg h, List.find?_append]
    have h1 : l.find? (fun x => k x == k a) = none := by
      rw [List.find?_eq_none]
      intro x hx hpx
      exact h (List.any_eq_true.mpr ⟨x, hx, hpx⟩)
    simp [h1, List.find?_cons]

theorem getNote_saveNote (db : DB) (n : NoteInput) (gid : String) (now : Nat) :
    getNote (saveNote db n gid now).2 (saveNote db n gid now).1.id =
      some (saveNote db n gid now).1 :=
  find?_putByKey Note.id db.notes (normalizeNote n gid now)

theorem getTask_saveTask (db : DB) (t : TaskInput) (gid : String) (now : Nat) :
    getTask (saveTask db t gid now).2 (saveTask db t gid now).1.id =
      some (saveTask db t gid now).1 :=
  find?_putByKey Task.id db.tasks (normalizeTask t gid now)

/-! ## Claim C1 — backend transparency (corrected) -/

/-- C1 counterexample: the very same call on the very same starting state —
`saveNote({})` on an empty store — succeeds on the structured backend (the
saved record is retrievable afterwards) but rejects with a `TypeError` on
the flat fallback backend.  Backend choice is therefore not transparent to
callers, contrary to the claim. -/
theorem c1_backend_transparency_counterexample :
    getNote (saveNote DB.empty {} "g0" 0).2 "g0" =
      some (saveNote DB.empty {} "g0" 0).1 ∧
    lsSaveNote LS.empty {} "g0" 0 = (.error putUndefined, LS.empty) :=
  ⟨rfl, rfl⟩

/-- C1 (amended): backend choice is not transparent.  In fallback mode every
`saveNote` call rejects, for every input and every starting state, while
the structured backend accepts every save; transparency does hold for
`getNotes` between a structured state and a fallback state that holds the
same serialized array of notes. -/
theorem c1_backend_transparency_amended :
    (∀ (ls : LS) (n : NoteInput) (g : String) (t : Nat),
        (lsSaveNote ls n g t).1 = .error putUndefined) ∧
    (∀ (db : DB) (ls : LS) (l : List Note), db.notes = l → ls.notes = .arr l →
        (lsGetNotes ls).1 = .ok (.array (getNotes db))) := by
  constructor
  · intro ls n g t
    rfl
  · intro db ls l h1 h2
    simp [lsGetNotes, getNotes, h1, h2, Slot.parse]

/-- Witness for C1 (amended) at concrete inputs. -/
theorem c1_backend_transparency_amended_witness :
    (lsSaveNote LS.empty {} "g" 1).1 = .error putUndefined ∧
    (lsGetNotes { LS.empty with notes := .arr [] }).1 =
      .ok (.array (getNotes DB.empty)) :=
  ⟨c1_backend_transparency_amended.1 LS.empty {} "g" 1,
   c1_backend_transparency_amended.2 DB.empty { LS.empty with notes := .arr [] }
     [] rfl rfl⟩

/-! ## Claim C2 — fallback saves always reject (confirmed) -/

/-- C2: in fallback mode, every call to `saveNote`, `saveTask`,
`saveKnowledgeGraph` or `saveSetting` rejects for every input and every
state — the operation calls `put` on the plain `{ data }` object supplied
by `performLocalStorageOperation`, which has no such method — and the
failed call leaves the persisted collections unchanged. -/
theorem c2_fallback_saves_always_reject :
    (∀ (ls : LS) (n : NoteInput) (g : String) (t : Nat),
        lsSaveNote ls n g t = (.error putUndefined, ls)) ∧
    (∀ (ls : LS) (tk : TaskInput) (g : String) (t : Nat),
        lsSaveTask ls tk g t = (.error putUndefined, ls)) ∧
    (∀ (ls : LS) (gr : GraphInput) (t : Nat),
        lsSaveKnowledgeGraph ls gr t = (.error putUndefined, ls)) ∧
    (∀ (ls : LS) (k v : String) (t : Nat),
        lsSaveSetting ls k v t = (.error putUndefined, ls)) :=
  ⟨fun _ _ _ _ => rfl, fun _ _ _ _ => rfl, fun _ _ _ => rfl, fun _ _ _ _ => rfl⟩

/-! ## Claim C3 — fallback reads have write side effects (confirmed) -/

/-- C3: in fallback mode, a successful single-record read writes back.
When `getNote(id)` or `getSetting(key)` finds a record, the combinator
serializes that single record as the collection's entire stored text
(replacing the stored array); and `getKnowledgeGraph` always writes its
returned object — the found record, or the default — back as the whole
`knowledge_graph` entry. -/
theorem c3_fallback_read_write_back :
    (∀ (ls : LS) (l : List Note) (id : String) (n : Note),
        ls.notes = .arr l → l.find? (fun m => m.id == id) = some n →
        lsGetNote ls id = (.ok (some n), { ls with notes := .single n })) ∧
    (∀ (ls : LS) (l : List Setting) (k d : String) (s : Setting),
        ls.settings = .arr l → l.find? (fun x => x.key == k) = some s →
        lsGetSetting ls k d = (.ok s.value, { ls with settings := .single s })) ∧
    (∀ (ls : LS) (l : List KgStored) (g : KgStored),
        ls.kg = .arr l →
        (l.find? (fun i => kgId i == some "main_graph")).getD .emptyGraph = g →
        lsGetKnowledgeGraph ls = (.ok g, { ls with kg := .single g })) := by
  refine ⟨?_, ?_, ?_⟩
  · intro ls l id n h1 h2
    simp [lsGetNote, h1, Slot.parse, h2]
  · intro ls l k d s h1 h2
    simp [lsGetSetting, h1, Slot.parse, h2]
  · intro ls l g h1 h2
    simp [lsGetKnowledgeGraph, h1, Slot.parse, h2]

/-- Witness for C3 at concrete states: one stored note, one stored setting
and one stored graph record are each found and each clobber their slot. -/
theorem c3_fallback_read_write_back_witness :
    lsGetNote { LS.empty with notes := Slot.arr [sampleNote] } "a" =
      (.ok (some sampleNote),
        { LS.empty with notes := Slot.single sampleNote }) ∧
    lsGetSetting { LS.empty with settings := Slot.arr [sampleSetting] }
        "theme" "light" =
      (.ok "dark",
        { LS.empty with settings := Slot.single sampleSetting }) ∧
    lsGetKnowledgeGraph
        { LS.empty with kg := Slot.arr [KgStored.record sampleGraph] } =
      (.ok (KgStored.record sampleGraph),
        { LS.empty with kg := Slot.single (KgStored.record sampleGraph) }) :=
  ⟨c3_fallback_read_write_back.1 _ _ "a" sampleNote rfl (by decide),
   c3_fallback_read_write_back.2.1 _ _ "theme" "light" sampleSetting rfl
     (by decide),
   c3_fallback_read_write_back.2.2 _ _ (KgStored.record sampleGraph) rfl
     (by decide)⟩

/-! ## Claim C5 — getKnowledgeGraph default (corrected) -/

/-- C5 counterexample: with no knowledge graph ever saved, the structured
backend's `getKnowledgeGraph()` returns the absent value (`undefined`), not
`{nodes: [], links: []}`; and the fallback call does not leave the
persisted state unchanged — it stores the default object back, after which
a second call even rejects.  Both halves of the claim fail. -/
theorem c5_get_knowledge_graph_counterexample :
    getKnowledgeGraph DB.empty = none ∧
    (lsGetKnowledgeGraph LS.empty).2 ≠ LS.empty ∧
    (lsGetKnowledgeGraph (lsGetKnowledgeGraph LS.empty).2).1 =
      .error findUndefined := by
  refine ⟨rfl, ?_, rfl⟩
  intro h
  exact Slot.noConfusion (congrArg LS.kg h)

/-- C5 (amended): in the structured backend, `getKnowledgeGraph()` in any
state where none was saved returns the not-found value (`undefined`) on
every call and has no side effect; in the fallback backend the first call
returns the default `{nodes: [], links: []}` but creates a stored
`knowledge_graph` entry holding that object, and in the resulting state
every further call rejects with a `TypeError`. -/
theorem c5_get_knowledge_graph_amended :
    (∀ db : DB, db.kg = none → getKnowledgeGraph db = none) ∧
    (∀ ls : LS, ls.kg = .absent →
        lsGetKnowledgeGraph ls =
          (.ok .emptyGraph, { ls with kg := .single .emptyGraph })) ∧
    (∀ ls : LS, ls.kg = .single .emptyGraph →
        lsGetKnowledgeGraph ls = (.error findUndefined, ls)) := by
  refine ⟨?_, ?_, ?_⟩
  · intro db h
    simpa [getKnowledgeGraph] using h
  · intro ls h
    simp [lsGetKnowledgeGraph, h, Slot.parse, kgId]
  · intro ls h
    simp [lsGetKnowledgeGraph, h, Slot.parse]

/-- Witness for C5 (amended) at the empty states. -/
theorem c5_get_knowledge_graph_amended_witness :
    getKnowledgeGraph DB.empty = none ∧
    lsGetKnowledgeGraph LS.empty =
      (.ok .emptyGraph, { LS.empty with kg := .single .emptyGraph }) ∧
    lsGetKnowledgeGraph { LS.empty with kg := .single .emptyGraph } =
      (.error findUndefined, { LS.empty with kg := .single .emptyGraph }) :=
  ⟨c5_get_knowledge_graph_amended.1 DB.empty rfl,
   c5_get_knowledge_graph_amended.2.1 LS.empty rfl,
   c5_get_knowledge_graph_amended.2.2 _ rfl⟩

/-! ## Claim C4 — saveNote/getNote round trip (corrected) -/

/-- C4 counterexample: the note `{ id: "", createdAt: 5 }` saved at time 3
refutes the claim as stated: the saved record (found by `getNote` on its
id) has `updatedAt = 3 < 5 = createdAt`, and the id present in the input —
the empty string, which `note.id || generateId()` treats as absent — was
not preserved. -/
theorem c4_save_get_note_counterexample :
    (saveNote DB.empty { id := some "", createdAt := some 5 } "k1" 3).1.updatedAt <
      (saveNote DB.empty { id := some "", createdAt := some 5 } "k1" 3).1.createdAt ∧
    (saveNote DB.empty { id := some "", createdAt := some 5 } "k1" 3).1.id ≠ "" ∧
    getNote (saveNote DB.empty { id := some "", createdAt := some 5 } "k1" 3).2 "k1" =
      some (saveNote DB.empty { id := some "", createdAt := some 5 } "k1" 3).1 := by
  refine ⟨by decide, by decide, rfl⟩

/-- C4 (amended): for every note `N` whose `createdAt`, when present, is at
most the save time, `saveNote(N)` followed by `getNote` on the id of the
saved record returns that record, whose `wordCount` equals the length of
its content and whose `updatedAt` is at least its `createdAt`; an id
present and nonempty in `N` is preserved unchanged (an empty-string id is
falsy in JS and is replaced by a generated id). -/
theorem c4_save_get_note_amended (db : DB) (n : NoteInput) (gid : String)
    (t : Nat) (hc : ∀ c, n.createdAt = some c → c ≤ t) :
    getNote (saveNote db n gid t).2 (saveNote db n gid t).1.id =
      some (saveNote db n gid t).1 ∧
    (saveNote db n gid t).1.wordCount = (saveNote db n gid t).1.content.length ∧
    (saveNote db n gid t).1.createdAt ≤ (saveNote db n gid t).1.updatedAt ∧
    (∀ i, n.id = some i → i ≠ "" → (saveNote db n gid t).1.id = i) := by
  refine ⟨getNote_saveNote db n gid t, ?_, ?_, ?_⟩
  · show (normalizeNote n gid t).wordCount = (normalizeNote n gid t).content.length
    cases hcon : n.content with
    | none => simp [normalizeNote, hcon, jsOrS]
    | some c =>
        by_cases hce : c = "" <;> simp [normalizeNote, hcon, jsOrS, hce]
  · show (normalizeNote n gid t).createdAt ≤ (normalizeNote n gid t).updatedAt
    cases hca : n.createdAt with
    | none => simp [normalizeNote, hca]
    | some c => simpa [normalizeNote, hca] using hc c hca
  · intro i hi hne
    show (normalizeNote n gid t).id = i
    simp [normalizeNote, hi, jsOrS_some_of_ne i gid hne]

/-- Witness for C4 (amended): the sample input has `createdAt = 2 ≤ 7`, and
the theorem's conclusion holds for it at save time 7. -/
theorem c4_save_get_note_amended_witness :
    sampleNoteInput.createdAt = some 2 ∧ (2 : Nat) ≤ 7 ∧
    getNote (saveNote DB.empty sampleNoteInput "g" 7).2
        (saveNote DB.empty sampleNoteInput "g" 7).1.id =
      some (saveNote DB.empty sampleNoteInput "g" 7).1 ∧
    (saveNote DB.empty sampleNoteInput "g" 7).1.createdAt ≤
      (saveNote DB.empty sampleNoteInput "g" 7).1.updatedAt :=
  ⟨rfl, by decide,
   (c4_save_get_note_amended DB.empty sampleNoteInput "g" 7
      (fun c hc => by simp [sampleNoteInput] at hc; omega)).1,
   (c4_save_get_note_amended DB.empty sampleNoteInput "g" 7
      (fun c hc => by simp [sampleNoteInput] at hc; omega)).2.2.1⟩

/-! ## Claim C6 — updateTaskStatus (confirmed) -/

/-- C6: saving a task, then `updateTaskStatus(id, true)` at a strictly later
time, then `getTask(id)` returns a record with `completed = true` and an
`updatedAt` strictly greater than the `updatedAt` before the status change;
and `updateTaskStatus` on an absent id is a no-op that returns the
not-found value.  The hypotheses model that `generateId()` always returns a
nonempty string and that the wall clock strictly advances between the two
writes. -/
theorem c6_update_task_status (db : DB) (T : TaskInput) (g1 g2 : String)
    (t0 t1 : Nat) (hg1 : g1 ≠ "") (ht : t0 < t1) :
    (∃ task : Task,
        getTask (updateTaskStatus (saveTask db T g1 t0).2
            (saveTask db T g1 t0).1.id true g2 t1).2
            (saveTask db T g1 t0).1.id = some task ∧
        task.completed = true ∧
        (saveTask db T g1 t0).1.updatedAt < task.updatedAt) ∧
    (∀ (db' : DB) (id : String) (c : Bool) (g : String) (t : Nat),
        getTask db' id = none → updateTaskStatus db' id c g t = (none, db')) := by
  constructor
  · have hid : (saveTask db T g1 t0).1.id ≠ "" := jsOrS_ne_empty T.id g1 hg1
    have hget := getTask_saveTask db T g1 t0
    simp only [updateTaskStatus, hget]
    have hid2 : (saveTask (saveTask db T g1 t0).2
        (taskToInput { (saveTask db T g1 t0).1 with
          completed := true, updatedAt := t1 }) g2 t1).1.id =
        (saveTask db T g1 t0).1.id :=
      jsOrS_some_of_ne (saveTask db T g1 t0).1.id g2 hid
    refine ⟨_, hid2 ▸ getTask_saveTask (saveTask db T g1 t0).2
        (taskToInput { (saveTask db T g1 t0).1 with
          completed := true, updatedAt := t1 }) g2 t1, rfl, ?_⟩
    exact ht
  · intro db' id c g t h
    simp [updateTaskStatus, h]

/-- Witness for C6: the empty task input saved with id `"a"` at time 0,
updated at time 1. -/
theorem c6_update_task_status_witness :
    ("a" : String) ≠ "" ∧ (0 : Nat) < 1 ∧
    (∃ task : Task,
        getTask (updateTaskStatus (saveTask DB.empty {} "a" 0).2
            (saveTask DB.empty {} "a" 0).1.id true "b" 1).2
            (saveTask DB.empty {} "a" 0).1.id = some task ∧
        task.completed = true ∧
        (saveTask DB.empty {} "a" 0).1.updatedAt < task.updatedAt) :=
  ⟨by decide, by decide,
   (c6_update_task_status DB.empty {} "a" "b" 0 1 (by decide) (by decide)).1⟩

/-! ## Claim C9 — searchNotes semantics (confirmed) -/

/-- C9: for every stored set of notes and every query string, `searchNotes`
returns exactly the stored notes for which the lower-cased query occurs as
a substring of the lower-cased title, or of the lower-cased content, or of
at least one lower-cased tag — OR semantics across the three fields. -/
theorem c9_search_notes_semantics (db : DB) (q : String) (n : Note) :
    n ∈ searchNotes db q ↔
      n ∈ getNotes db ∧
        (strIncludes n.title.toLower q.toLower = true ∨
         strIncludes n.content.toLower q.toLower = true ∨
         ∃ tag ∈ n.tags, strIncludes tag.toLower q.toLower = true) := by
  simp [searchNotes, noteMatches, List.mem_filter, List.any_eq_true,
    Bool.or_eq_true, or_assoc]

/-! ## Claim C10 — deleteNote (confirmed) -/

/-- C10: `deleteNote(id)` on a nonexistent id leaves the notes collection
unchanged (and, being a plain filter over the store, raises no error —
the structured branch's `store.delete` succeeds whether or not the key
exists); and after `deleteNote(id)`, `getNotes()` never includes a note
with the deleted id. -/
theorem c10_delete_note (db : DB) (id : String) :
    (getNote db id = none → deleteNote db id = db) ∧
    (∀ n ∈ getNotes (deleteNote db id), n.id ≠ id) := by
  constructor
  · intro h
    have h1 : ∀ n ∈ db.notes, ¬(n.id == id) = true :=
      List.find?_eq_none.mp h
    have h2 : db.notes.filter (fun n => !(n.id == id)) = db.notes :=
      List.filter_eq_self.mpr fun n hn => by
        simpa using h1 n hn
    simp [deleteNote, h2]
  · intro n hn
    have h3 : (!(n.id == id)) = true := (List.mem_filter.mp hn).2
    simpa using h3

/-- Witness for C10: deleting the absent id `"zz"` from a store holding only
`sampleNote` is a no-op, and no remaining note carries the deleted id. -/
theorem c10_delete_note_witness :
    getNote { DB.empty with notes := [sampleNote] } "zz" = none ∧
    deleteNote { DB.empty with notes := [sampleNote] } "zz" =
      { DB.empty with notes := [sampleNote] } ∧
    (∀ n ∈ getNotes (deleteNote { DB.empty with notes := [sampleNote] } "zz"),
      n.id ≠ "zz") :=
  ⟨by decide,
   (c10_delete_note { DB.empty with notes := [sampleNote] } "zz").1 (by decide),
   (c10_delete_note { DB.empty with notes := [sampleNote] } "zz").2⟩

/-! ## Replay lemmas for the import path -/

theorem normalizeNote_replay (n : Note) (g : String) (t : Nat) (h : NoteWf n) :
    normalizeNote (noteToInput n) g t = reimportNote t n := by
  obtain ⟨h1, h2⟩ := h
  by_cases hc : n.content = "" <;>
    simp [normalizeNote, noteToInput, reimportNote, jsOrS_some_of_ne _ _ h1,
      jsOrS_some_of_ne _ _ h2, jsOrS_some_empty_default, hc]

theorem normalizeTask_replay (x : Task) (g : String) (t : Nat) (h : TaskWf x) :
    normalizeTask (taskToInput x) g t = reimportTask t x := by
  obtain ⟨h1, h2, h3, h4, h5⟩ := h
  simp [normalizeTask, taskToInput, reimportTask, jsOrS_some_of_ne _ _ h1,
    jsOrS_some_of_ne _ _ h2, jsOrS_some_of_ne _ _ h3, jsOrS_some_empty_default,
    jsOrNull_of_ne _ h4, jsOrNull_of_ne _ h5]

theorem putByKey_append (k : α → String) (l : List α) (a : α)
    (h : ∀ x ∈ l, ¬ k x = k a) : putByKey k l a = l ++ [a] := by
  have hany : (l.any fun x => k x == k a) = false := by
    rw [List.any_eq_false]
    intro x hx
    simpa using h x hx
  simp [putByKey, hany]

theorem importNotesGo_append (l : List Note) :
    ∀ (db : DB) (g : Nat → String) (i t : Nat),
      (∀ n ∈ l, NoteWf n) → (l.map Note.id).Nodup →
      (∀ n ∈ l, ∀ m ∈ db.notes, m.id ≠ n.id) →
      importNotesGo db (l.map (fun n => some (noteToInput n))) g i t =
        (.ok (), { db with notes := db.notes ++ l.map (reimportNote t) }) := by
  induction l with
  | nil =>
      intro db g i t _ _ _
      simp [importNotesGo]
  | cons n rest ih =>
      intro db g i t hwf hnd hdisj
      have hwfn : NoteWf n := hwf n (by simp)
      have hnd1 : n.id ∉ rest.map Note.id ∧ (rest.map Note.id).Nodup :=
        List.nodup_cons.mp (by simpa using hnd)
      have hput : putByKey Note.id db.notes (normalizeNote (noteToInput n) (g i) t) =
          db.notes ++ [reimportNote t n] := by
        rw [normalizeNote_replay n (g i) t hwfn]
        refine putByKey_append Note.id db.notes (reimportNote t n) ?_
        intro m hm
        have hne := hdisj n (by simp) m hm
        simpa [reimportNote] using hne
      have hdisj1 : ∀ x ∈ rest, ∀ m ∈ db.notes ++ [reimportNote t n],
          m.id ≠ x.id := by
        intro x hx m hm
        rcases List.mem_append.mp hm with hm | hm
        · exact hdisj x (by simp [hx]) m hm
        · have hmn : m = reimportNote t n := by simpa using hm
          subst hmn
          intro he
          refine hnd1.1 ?_
          rw [List.mem_map]
          refine ⟨x, hx, ?_⟩
          simpa [reimportNote] using he.symm
      simp only [List.map_cons, importNotesGo, saveNoteElem, saveNote]
      rw [hput, ih { db with notes := db.notes ++ [reimportNote t n] } g (i + 1) t
        (fun x hx => hwf x (by simp [hx])) hnd1.2 hdisj1]
      simp

theorem importTasksGo_append (l : List Task) :
    ∀ (db : DB) (g : Nat → String) (i t : Nat),
      (∀ x ∈ l, TaskWf x) → (l.map Task.id).Nodup →
      (∀ x ∈ l, ∀ m ∈ db.tasks, m.id ≠ x.id) →
      importTasksGo db (l.map (fun x => some (taskToInput x))) g i t =
        (.ok (), { db with tasks := db.tasks ++ l.map (reimportTask t) }) := by
  induction l with
  | nil =>
      intro db g i t _ _ _
      simp [importTasksGo]
  | cons x rest ih =>
      intro db g i t hwf hnd hdisj
      have hwfx : TaskWf x := hwf x (by simp)
      have hnd1 : x.id ∉ rest.map Task.id ∧ (rest.map Task.id).Nodup :=
        List.nodup_cons.mp (by simpa using hnd)
      have hput : putByKey Task.id db.tasks (normalizeTask (taskToInput x) (g i) t) =
          db.tasks ++ [reimportTask t x] := by
        rw [normalizeTask_replay x (g i) t hwfx]
        refine putByKey_append Task.id db.tasks (reimportTask t x) ?_
        intro m hm
        have hne := hdisj x (by simp) m hm
        simpa [reimportTask] using hne
      have hdisj1 : ∀ y ∈ rest, ∀ m ∈ db.tasks ++ [reimportTask t x],
          m.id ≠ y.id := by
        intro y hy m hm
        rcases List.mem_append.mp hm with hm | hm
        · exact hdisj y (by simp [hy]) m hm
        · have hmx : m = reimportTask t x := by simpa using hm
          subst hmx
          intro he
          refine hnd1.1 ?_
          rw [List.mem_map]
          refine ⟨y, hy, ?_⟩
          simpa [reimportTask] using he.symm
      simp only [List.map_cons, importTasksGo, saveTaskElem, saveTask]
      rw [hput, ih { db with tasks := db.tasks ++ [reimportTask t x] } g (i + 1) t
        (fun y hy => hwf y (by simp [hy])) hnd1.2 hdisj1]
      simp

theorem importSettingsGo_frame (l : List Setting) :
    ∀ (db : DB) (t : Nat),
      (importSettingsGo db l t).notes = db.notes ∧
      (importSettingsGo db l t).tasks = db.tasks := by
  induction l with
  | nil =>
      intro db t
      exact ⟨rfl, rfl⟩
  | cons s rest ih =>
      intro db t
      simpa [importSettingsGo, saveSetting] using
        ih (saveSetting db s.key s.value t).2 t

/-! ## Claim C7 — export / clear / import round trip (confirmed) -/

/-- C7: for every stored state reachable through the Façade (all records
normalized: nonempty ids and titles, no empty-string optional fields,
distinct primary keys), `exportData()` followed by `clearAllData()`
followed by `importData` of the exported document succeeds and reproduces
exactly the stored notes and tasks up to re-normalization: the final
collections are the originals with `updatedAt` refreshed to the import
time (and `wordCount` recomputed), so the set of note and task ids, and
each record's title, content/description and tags, are unchanged. -/
theorem c7_export_import_round_trip (db : DB) (tE tI : Nat)
    (gN gT : Nat → String)
    (hwn : ∀ n ∈ db.notes, NoteWf n) (hdn : (db.notes.map Note.id).Nodup)
    (hwt : ∀ x ∈ db.tasks, TaskWf x) (hdt : (db.tasks.map Task.id).Nodup) :
    (importData (clearAllData db) (exportData db tE) gN gT tI).1 = .ok true ∧
    getNotes (importData (clearAllData db) (exportData db tE) gN gT tI).2 =
      db.notes.map (reimportNote tI) ∧
    getTasks (importData (clearAllData db) (exportData db tE) gN gT tI).2 =
      db.tasks.map (reimportTask tI) ∧
    (db.notes.map (reimportNote tI)).map
        (fun n => (n.id, n.title, n.content, n.tags)) =
      db.notes.map (fun n => (n.id, n.title, n.content, n.tags)) ∧
    (db.tasks.map (reimportTask tI)).map
        (fun x => (x.id, x.title, x.description, x.completed)) =
      db.tasks.map (fun x => (x.id, x.title, x.description, x.completed)) := by
  have hN := importNotesGo_append db.notes DB.empty gN 0 tI hwn hdn
    (by intro n _ m hm; simp [DB.empty] at hm)
  have hT := importTasksGo_append db.tasks
    { DB.empty with notes := DB.empty.notes ++ db.notes.map (reimportNote tI) }
    gT 0 tI hwt hdt (by intro x _ m hm; simp [DB.empty] at hm)
  have key : importData (clearAllData db) (exportData db tE) gN gT tI =
      (.ok true,
        importSettingsGo
          (match db.kg.map graphToInput with
            | none =>
                { DB.empty with
                  notes := DB.empty.notes ++ db.notes.map (reimportNote tI),
                  tasks := DB.empty.tasks ++ db.tasks.map (reimportTask tI) }
            | some g =>
                (saveKnowledgeGraph
                  { DB.empty with
                    notes := DB.empty.notes ++ db.notes.map (reimportNote tI),
                    tasks := DB.empty.tasks ++ db.tasks.map (reimportTask tI) }
                  g tI).2)
          db.settings tI) := by
    simp only [importData, clearAllData, exportData, getKnowledgeGraph,
      getAllSettings, Option.getD_some, hN]
    rw [hT]
  rcases hkg : db.kg.map graphToInput with _ | g
  · rw [hkg] at key
    have hS := importSettingsGo_frame db.settings
      { DB.empty with
        notes := DB.empty.notes ++ db.notes.map (reimportNote tI),
        tasks := DB.empty.tasks ++ db.tasks.map (reimportTask tI) } tI
    refine ⟨by rw [key], ?_, ?_, ?_, ?_⟩
    · show (importData (clearAllData db) (exportData db tE) gN gT tI).2.notes = _
      rw [key]
      simpa [DB.empty] using hS.1
    · show (importData (clearAllData db) (exportData db tE) gN gT tI).2.tasks = _
      rw [key]
      simpa [DB.empty] using hS.2
    · rw [List.map_map]
      rfl
    · rw [List.map_map]
      rfl
  · rw [hkg] at key
    have hS := importSettingsGo_frame db.settings
      (saveKnowledgeGraph
        { DB.empty with
          notes := DB.empty.notes ++ db.notes.map (reimportNote tI),
          tasks := DB.empty.tasks ++ db.tasks.map (reimportTask tI) }
        g tI).2 tI
    refine ⟨by rw [key], ?_, ?_, ?_, ?_⟩
    · show (importData (clearAllData db) (exportData db tE) gN gT tI).2.notes = _
      rw [key]
      simpa [DB.empty, saveKnowledgeGraph] using hS.1
    · show (importData (clearAllData db) (exportData db tE) gN gT tI).2.tasks = _
      rw [key]
      simpa [DB.empty, saveKnowledgeGraph] using hS.2
    · rw [List.map_map]
      rfl
    · rw [List.map_map]
      rfl

/-- Witness for C7: a store holding one note and one task round-trips. -/
theorem c7_export_import_round_trip_witness :
    NoteWf sampleNote ∧ TaskWf sampleTask ∧
    (importData (clearAllData { DB.empty with notes := [sampleNote], tasks := [sampleTask] })
        (exportData { DB.empty with notes := [sampleNote], tasks := [sampleTask] } 4)
        (fun _ => "g") (fun _ => "h") 9).1 = .ok true ∧
    getNotes (importData (clearAllData { DB.empty with notes := [sampleNote], tasks := [sampleTask] })
        (exportData { DB.empty with notes := [sampleNote], tasks := [sampleTask] } 4)
        (fun _ => "g") (fun _ => "h") 9).2 = [reimportNote 9 sampleNote] :=
  ⟨by decide, by decide,
   (c7_export_import_round_trip
      { DB.empty with notes := [sampleNote], tasks := [sampleTask] } 4 9
      (fun _ => "g") (fun _ => "h") (by decide) (by decide) (by decide)
      (by decide)).1,
   (c7_export_import_round_trip
      { DB.empty with notes := [sampleNote], tasks := [sampleTask] } 4 9
      (fun _ => "g") (fun _ => "h") (by decide) (by decide) (by decide)
      (by decide)).2.1⟩

/-! ## Claim C8 — importData failure policy (confirmed) -/

/-- C8: `importData` fails with the import-format error when the document
has no `data` field, leaving the store untouched; and when saving one
record of the batch throws mid-import — here a `null` array element after
a valid note — the whole import is aborted with that error surfaced, while
the write already applied for the earlier record is kept (no rollback). -/
theorem c8_import_error_handling (db : DB) (doc : ExportDoc) (n1 : NoteInput)
    (gN gT : Nat → String) (t : Nat) (hdoc : doc.data = none) :
    importData db doc gN gT t = (.error .importError, db) ∧
    importData db { data := some { notes := some [some n1, none] } } gN gT t =
      (.error nullRecord, (saveNote db n1 (gN 0) t).2) := by
  constructor
  · simp [importData, hdoc]
  · simp [importData, importNotesGo, saveNoteElem]

/-- Witness for C8: the empty document is rejected outright; the batch
`[{}, null]` aborts at the `null` element with the first note kept. -/
theorem c8_import_error_handling_witness :
    ({} : ExportDoc).data = none ∧
    importData DB.empty {} (fun _ => "g") (fun _ => "h") 0 =
      (.error .importError, DB.empty) ∧
    importData DB.empty { data := some { notes := some [some {}, none] } }
        (fun _ => "g") (fun _ => "h") 0 =
      (.error nullRecord, (saveNote DB.empty {} "g" 0).2) :=
  ⟨rfl,
   (c8_import_error_handling DB.empty {} {} (fun _ => "g") (fun _ => "h") 0
      rfl).1,
   (c8_import_error_handling DB.empty {} {} (fun _ => "g") (fun _ => "h") 0
      rfl).2⟩

end CodeBuddy
